import Mathlib

/-!
Shallow embedding of the bus-pass server (server.js).

The source file contains two copies of the same Express server: an ESM
version (before the separator) and a CommonJS version (after it).  The
top-level definitions below embed the ESM copy; the namespace Cjs embeds
the CommonJS copy.  Request bodies are maps of optional strings
(undefined or a string value), JavaScript truthiness of such a value is
the predicate truthy, and the JavaScript or-operator on such values is
jsOr.  The MongoDB collections are embedded as Lean lists; findOne is
List.find? (first match in natural order), insertOne appends.  MongoDB
ObjectId construction from a string (which throws on a malformed id) is
embedded as parseObjectId, returning none exactly when the constructor
throws.  Math.random() is embedded as a rational parameter q with
0 <= q < 1, and Date.now as a natural-number parameter.
-/

/-- Truthiness of a JavaScript value that is either a string or undefined:
undefined and the empty string are falsy, every other string is truthy. -/
def truthy : Option String → Bool
  | none => false
  | some s => !(s == "")

/-- The JavaScript or-operator on optional string values: returns the first
operand when it is truthy, otherwise the second operand. -/
def jsOr (a b : Option String) : Option String :=
  if truthy a then a else b

/-- A JavaScript number as it matters here: either NaN or a rational value. -/
inductive JsNum where
  | nan : JsNum
  | num : ℚ → JsNum
deriving DecidableEq, Repr

/-- Models the ECMAScript Number coercion on the fragment of inputs this
server receives for the amount field: undefined coerces to NaN, the empty
string to 0, a nonempty string of decimal digits to its value, and any
other string to NaN (strings with signs, dots or exponents, which would
coerce to non-integer numbers, do not occur in the claims considered). -/
def jsToNumber : Option String → JsNum
  | none => .nan
  | some s =>
    if s == "" then .num 0
    else if s.data.all Char.isDigit then
      .num ((s.data.foldl (fun n c => 10 * n + (c.toNat - 48)) 0 : ℕ) : ℚ)
    else .nan

/-- The numeric value of a hexadecimal digit character, none otherwise. -/
def hexDigitVal (c : Char) : Option Nat :=
  if c.isDigit then some (c.toNat - 48)
  else if 'a' ≤ c ∧ c ≤ 'f' then some (c.toNat - 87)
  else if 'A' ≤ c ∧ c ≤ 'F' then some (c.toNat - 55)
  else none

/-- MongoDB ObjectId construction from a route or body string: accepts a
24-character hexadecimal string and yields its numeric value; any other
string makes the ObjectId constructor throw, embedded here as none. -/
def parseObjectId (s : String) : Option Nat :=
  if s.length == 24 then
    s.data.foldl
      (fun acc c =>
        match acc, hexDigitVal c with
        | some n, some d => some (16 * n + d)
        | _, _ => none)
      (some 0)
  else none

/-- generateUniquePassId from server.js: randomNum is
Math.floor(10000000 + Math.random() * 90000000), where the Math.random()
draw is the parameter q with 0 <= q < 1, and the result is the template
string TSRTC- followed by randomNum. -/
def generateUniquePassId (q : ℚ) : String :=
  let randomNum : ℤ := ⌊(10000000 : ℚ) + q * 90000000⌋
  "TSRTC-" ++ toString randomNum

/-- The nested age object of an applicant document. -/
structure Age where
  years : Option String
  months : Option String
  days : Option String
deriving DecidableEq, Repr

/-- The applicant document inserted by the apply handler, field for field. -/
structure ApplicantDoc where
  passId : String
  qrCode : String
  name : Option String
  fatherName : Option String
  dob : Option String
  gender : Option String
  age : Age
  aadhar : Option String
  phone : Option String
  whatsapp : Option String
  number : Option String
  email : Option String
  photo : String
  aadharFile : String
  address : Option String
  district : Option String
  mandal : Option String
  village : Option String
  pincode : Option String
  city : Option String
  passType : Option String
  paymentMode : String
  deliveryMode : String
  counter : Option String
  createdAt : Nat
deriving DecidableEq, Repr

/-- The text fields of the multipart body of POST /apply. -/
structure ApplyBody where
  name : Option String := none
  fatherName : Option String := none
  dob : Option String := none
  gender : Option String := none
  ageYears : Option String := none
  ageMonths : Option String := none
  ageDays : Option String := none
  aadhar : Option String := none
  phone : Option String := none
  whatsapp : Option String := none
  number : Option String := none
  email : Option String := none
  address : Option String := none
  district : Option String := none
  mandal : Option String := none
  village : Option String := none
  pincode : Option String := none
  city : Option String := none
  passType : Option String := none
  counter : Option String := none
deriving DecidableEq, Repr

/-- The uploaded files of POST /apply: the stored filename of each part,
when present. -/
structure ApplyFiles where
  photo : Option String := none
  aadharFile : Option String := none
deriving DecidableEq, Repr

/-- The document built and inserted by the apply handler of the ESM copy.
The QR encoder (QRCode.toDataURL), the Math.random() draw q and the
current time now are parameters standing for the external collaborators. -/
def applyDoc (qrToDataURL : String → String) (q : ℚ) (now : Nat)
    (body : ApplyBody) (files : ApplyFiles) : ApplicantDoc :=
  let passId := generateUniquePassId q
  let qrDataUrl := qrToDataURL passId
  let phoneNumber := jsOr body.phone (jsOr body.whatsapp body.number)
  { passId := passId
    qrCode := qrDataUrl
    name := body.name
    fatherName := body.fatherName
    dob := body.dob
    gender := body.gender
    age := { years := body.ageYears, months := body.ageMonths, days := body.ageDays }
    aadhar := body.aadhar
    phone := phoneNumber
    whatsapp := jsOr body.whatsapp phoneNumber
    number := jsOr body.number phoneNumber
    email := body.email
    photo := match files.photo with
      | some f => "/uploads/" ++ f
      | none => ""
    aadharFile := match files.aadharFile with
      | some f => "/uploads/" ++ f
      | none => ""
    address := body.address
    district := body.district
    mandal := body.mandal
    village := body.village
    pincode := body.pincode
    city := body.city
    passType := body.passType
    paymentMode := "FREE SCHEME"
    deliveryMode := "Bus Pass Counter"
    counter := body.counter
    createdAt := now }

/-- A stored applicant record: the inserted document together with the
internal id the store assigned on insert. -/
structure StoredApplicant where
  _id : Nat
  app : ApplicantDoc
deriving DecidableEq, Repr

/-- Response of GET /verify/:phone: success with the internal id of the
matching record, or failure when no record matches. -/
inductive VerifyResp where
  | success : Nat → VerifyResp
  | failure : VerifyResp
deriving DecidableEq, Repr

/-- The or-query of the verify handler: a record matches when its phone,
whatsapp or number field equals the query value. -/
def matchesPhone (phone : String) (r : StoredApplicant) : Bool :=
  r.app.phone == some phone || r.app.whatsapp == some phone
    || r.app.number == some phone

/-- GET /verify/:phone of the ESM copy: findOne on the or-query over the
three contact fields, answering success with the id on a match. -/
def verifyByPhone (store : List StoredApplicant) (phone : String) : VerifyResp :=
  let applicant := store.find? (fun r => matchesPhone phone r)
  match applicant with
  | some a => .success a._id
  | none => .failure

/-- Response of GET /applicant/:id: success with the record, a not-found
body with success false, or the generic 500 server error of the catch. -/
inductive IdResp where
  | found : StoredApplicant → IdResp
  | notFound : IdResp
  | serverError : IdResp
deriving DecidableEq, Repr

/-- GET /applicant/:id of the ESM copy, returning the HTTP status and the
body: ObjectId construction throws on a malformed id and the catch
answers 500 Server error; otherwise findOne on the internal id answers
success with the applicant or success false, both with status 200. -/
def getById (store : List StoredApplicant) (idStr : String) : Nat × IdResp :=
  match parseObjectId idStr with
  | none => (500, .serverError)
  | some oid =>
    match store.find? (fun r => r._id == oid) with
    | some a => (200, .found a)
    | none => (200, .notFound)

/-- Response body of GET /getApplicant/:passId: the raw record, or the
not-found body with success false and msg Not found. -/
inductive PassResp where
  | record : StoredApplicant → PassResp
  | notFoundMsg : PassResp
deriving DecidableEq, Repr

/-- GET /getApplicant/:passId of the ESM copy, returning HTTP status and
body: status is 200 or 404 by the ternary on the findOne result, and the
body is the applicant or-else the not-found object. -/
def getByPassId (store : List StoredApplicant) (passId : String) : Nat × PassResp :=
  let applicant := store.find? (fun r => r.app.passId == passId)
  (if applicant.isSome then 200 else 404,
    match applicant with
    | some a => .record a
    | none => .notFoundMsg)

/-- The JSON body of POST /bookTicket. -/
structure BookBody where
  applicantId : Option String := none
  source : Option String := none
  destination : Option String := none
  paymentType : Option String := none
  amount : Option String := none
deriving DecidableEq, Repr

/-- The ticket document inserted by the bookTicket handler. -/
structure TicketDoc where
  applicantId : Nat
  source : String
  destination : String
  paymentType : String
  amount : JsNum
  bookedAt : Nat
deriving DecidableEq, Repr

/-- Response of POST /bookTicket: the missing-fields rejection, success
with the inserted ticket, or the 500 error of the catch (reached when
ObjectId construction throws). -/
inductive BookResp where
  | missing : BookResp
  | success : TicketDoc → BookResp
  | error : BookResp
deriving DecidableEq, Repr

/-- POST /bookTicket of the ESM copy: reject when any of applicantId,
source, destination, paymentType is falsy; otherwise build the ticket
document, with amount Number(amount) when paymentType is PAID and 0
otherwise, and insert it.  Returns the response and the tickets store
after the call. -/
def bookTicket (now : Nat) (body : BookBody) (store : List TicketDoc) :
    BookResp × List TicketDoc :=
  if !truthy body.applicantId || !truthy body.source
      || !truthy body.destination || !truthy body.paymentType then
    (.missing, store)
  else
    match parseObjectId (body.applicantId.getD "") with
    | none => (.error, store)
    | some oid =>
      let ticketDoc : TicketDoc :=
        { applicantId := oid
          source := body.source.getD ""
          destination := body.destination.getD ""
          paymentType := body.paymentType.getD ""
          amount := if body.paymentType.getD "" == "PAID"
            then jsToNumber body.amount else .num 0
          bookedAt := now }
      (.success ticketDoc, store ++ [ticketDoc])

/-- The k low-order bits of a natural number, least significant first. -/
def natToBits : Nat → Nat → List Bool
  | 0, _ => []
  | k + 1, n => (n % 2 == 1) :: natToBits k (n / 2)

/-- The natural number a bit list denotes, least significant bit first. -/
def bitsToNat : List Bool → Nat
  | [] => 0
  | b :: bs => (if b then 1 else 0) + 2 * bitsToNat bs

/-- The eight-bit code of one character of the pass identifier. -/
def charToBits (c : Char) : List Bool :=
  natToBits 8 c.toNat

/-- The concatenated eight-bit codes of a character list. -/
def encodeChars : List Char → List Bool
  | [] => []
  | c :: cs => charToBits c ++ encodeChars cs

/-- Decode k characters of eight bits each from a bit stream; none when
the stream is too short or has trailing bits. -/
def decodeChars : Nat → List Bool → Option (List Char)
  | 0, [] => some []
  | 0, _ :: _ => none
  | k + 1, bs =>
    if (bs.take 8).length == 8 then
      match decodeChars k (bs.drop 8) with
      | some cs => some (Char.ofNat (bitsToNat (bs.take 8)) :: cs)
      | none => none
    else none

/-- Modelled from the spec: the QR payload QRCode.toDataURL produces for
the pass identifier (the QR library is an external dependency, not code
under src/; the spec requires a deterministic lossless encoding).  The
content-carrying layer of a QR code is its byte-mode data segment,
embedded here: the four-bit byte-mode indicator with value 4, an
eight-bit character count, then the eight-bit code of each character. -/
def qrByteModeEncode (s : String) : List Bool :=
  natToBits 4 4 ++ natToBits 8 s.length ++ encodeChars s.data

/-- Modelled from the spec: the decoder of the byte-mode data segment, as
a QR scanner recovers the pass identifier from the payload. -/
def qrByteModeDecode (bs : List Bool) : Option String :=
  if bs.take 4 == natToBits 4 4 then
    if ((bs.drop 4).take 8).length == 8 then
      match decodeChars (bitsToNat ((bs.drop 4).take 8)) ((bs.drop 4).drop 8) with
      | some cs => some (String.mk cs)
      | none => none
    else none
  else none

namespace Cjs

/-- generateUniquePassId of the CommonJS copy, line for line the same
computation as the ESM copy. -/
def generateUniquePassId (q : ℚ) : String :=
  let randomNum : ℤ := ⌊(10000000 : ℚ) + q * 90000000⌋
  "TSRTC-" ++ toString randomNum

/-- The document built and inserted by the apply handler of the CommonJS
copy. -/
def applyDoc (qrToDataURL : String → String) (q : ℚ) (now : Nat)
    (body : ApplyBody) (files : ApplyFiles) : ApplicantDoc :=
  let passId := generateUniquePassId q
  let qrDataUrl := qrToDataURL passId
  let phoneNumber := jsOr body.phone (jsOr body.whatsapp body.number)
  { passId := passId
    qrCode := qrDataUrl
    name := body.name
    fatherName := body.fatherName
    dob := body.dob
    gender := body.gender
    age := { years := body.ageYears, months := body.ageMonths, days := body.ageDays }
    aadhar := body.aadhar
    phone := phoneNumber
    whatsapp := jsOr body.whatsapp phoneNumber
    number := jsOr body.number phoneNumber
    email := body.email
    photo := match files.photo with
      | some f => "/uploads/" ++ f
      | none => ""
    aadharFile := match files.aadharFile with
      | some f => "/uploads/" ++ f
      | none => ""
    address := body.address
    district := body.district
    mandal := body.mandal
    village := body.village
    pincode := body.pincode
    city := body.city
    passType := body.passType
    paymentMode := "FREE SCHEME"
    deliveryMode := "Bus Pass Counter"
    counter := body.counter
    createdAt := now }

/-- GET /verify/:phone of the CommonJS copy: the same or-query findOne,
written with an if-else on the result instead of a ternary. -/
def verifyByPhone (store : List StoredApplicant) (phone : String) : VerifyResp :=
  let applicant := store.find? (fun r => matchesPhone phone r)
  match applicant with
  | some a => .success a._id
  | none => .failure

/-- GET /applicant/:id of the CommonJS copy. -/
def getById (store : List StoredApplicant) (idStr : String) : Nat × IdResp :=
  match parseObjectId idStr with
  | none => (500, .serverError)
  | some oid =>
    match store.find? (fun r => r._id == oid) with
    | some a => (200, .found a)
    | none => (200, .notFound)

/-- GET /getApplicant/:passId of the CommonJS copy: an early 404 return
when findOne misses, then the raw record with the default 200 status. -/
def getByPassId (store : List StoredApplicant) (passId : String) : Nat × PassResp :=
  let applicant := store.find? (fun r => r.app.passId == passId)
  match applicant with
  | none => (404, .notFoundMsg)
  | some a => (200, .record a)

/-- POST /bookTicket of the CommonJS copy. -/
def bookTicket (now : Nat) (body : BookBody) (store : List TicketDoc) :
    BookResp × List TicketDoc :=
  if !truthy body.applicantId || !truthy body.source
      || !truthy body.destination || !truthy body.paymentType then
    (.missing, store)
  else
    match parseObjectId (body.applicantId.getD "") with
    | none => (.error, store)
    | some oid =>
      let ticketDoc : TicketDoc :=
        { applicantId := oid
          source := body.source.getD ""
          destination := body.destination.getD ""
          paymentType := body.paymentType.getD ""
          amount := if body.paymentType.getD "" == "PAID"
            then jsToNumber body.amount else .num 0
          bookedAt := now }
      (.success ticketDoc, store ++ [ticketDoc])

end Cjs

section Lemmas

theorem jsOr_truthy (a b : Option String)
    (h : truthy a = true) : jsOr a b = a := by
  simp [jsOr, h]

theorem jsOr_falsy (a b : Option String)
    (h : truthy a = false) : jsOr a b = b := by
  simp [jsOr, h]

end Lemmas

/-- C1: every call to generateUniquePassId, for any Math.random() draw q
with 0 <= q < 1, returns the string TSRTC- followed by the decimal
representation of a natural number that has exactly 8 digits and lies in
the inclusive range from 10000000 to 99999999. -/
theorem generateUniquePassId_format (q : ℚ) (h0 : 0 ≤ q) (h1 : q < 1) :
    ∃ n : ℕ, generateUniquePassId q = "TSRTC-" ++ Nat.repr n ∧
      10000000 ≤ n ∧ n ≤ 99999999 ∧ (Nat.digits 10 n).length = 8 := by
  have hlb : (10000000 : ℤ) ≤ ⌊(10000000 : ℚ) + q * 90000000⌋ := by
    apply Int.le_floor.mpr
    push_cast
    nlinarith
  have hub : ⌊(10000000 : ℚ) + q * 90000000⌋ < 100000000 := by
    apply Int.floor_lt.mpr
    push_cast
    nlinarith
  have hnn : (0 : ℤ) ≤ ⌊(10000000 : ℚ) + q * 90000000⌋ := by omega
  refine ⟨(⌊(10000000 : ℚ) + q * 90000000⌋).toNat, ?_, by omega, by omega, ?_⟩
  · show "TSRTC-" ++ toString ⌊(10000000 : ℚ) + q * 90000000⌋ = _
    congr 1
    conv_lhs => rw [← Int.toNat_of_nonneg hnn]
    rfl
  · have h7 : 10000000 ≤ (⌊(10000000 : ℚ) + q * 90000000⌋).toNat := by omega
    have h8 : (⌊(10000000 : ℚ) + q * 90000000⌋).toNat < 100000000 := by omega
    rw [Nat.digits_len 10 _ (by norm_num) (by omega)]
    have hlog : Nat.log 10 (⌊(10000000 : ℚ) + q * 90000000⌋).toNat = 7 := by
      apply Nat.log_eq_of_pow_le_of_lt_pow
      · have : (10 : ℕ) ^ 7 = 10000000 := by norm_num
        omega
      · have : (10 : ℕ) ^ (7 + 1) = 100000000 := by norm_num
        omega
    omega

/-- C1 witness: the format theorem instantiated at the draw one half. -/
theorem generateUniquePassId_format_witness :
    ∃ n : ℕ, generateUniquePassId (1 / 2) = "TSRTC-" ++ Nat.repr n ∧
      10000000 ≤ n ∧ n ≤ 99999999 ∧ (Nat.digits 10 n).length = 8 :=
  generateUniquePassId_format (1 / 2) (by norm_num) (by norm_num)

/-- C2: whenever bookTicket stores a ticket, the stored amount is the
Number coercion of the supplied amount when the supplied paymentType is
PAID, and 0 for every other paymentType regardless of the supplied
amount. -/
theorem bookTicket_amount_policy (now : Nat) (body : BookBody)
    (store : List TicketDoc) (t : TicketDoc)
    (h : (bookTicket now body store).1 = .success t) :
    (body.paymentType = some "PAID" → t.amount = jsToNumber body.amount) ∧
    (body.paymentType ≠ some "PAID" → t.amount = JsNum.num 0) := by
  unfold bookTicket at h
  split at h
  · simp at h
  · split at h
    · simp at h
    · injection h with h
      rw [← h]
      constructor
      · intro hp
        have hgd : body.paymentType.getD "" = "PAID" := by rw [hp]; rfl
        simp [hgd]
      · intro hp
        have hgd : (body.paymentType.getD "" == "PAID") = false := by
          cases hPT : body.paymentType with
          | none => rfl
          | some s =>
            have : s ≠ "PAID" := fun hs => hp (by rw [hPT, hs])
            simpa [Option.getD] using this
        simp [hgd]

/-- A booking body with every field well-formed and paymentType PAID. -/
def exBodyPaid : BookBody :=
  { applicantId := some "000000000000000000000000", source := some "A",
    destination := some "B", paymentType := some "PAID", amount := some "500" }

/-- The same booking body with paymentType FREE. -/
def exBodyFree : BookBody :=
  { applicantId := some "000000000000000000000000", source := some "A",
    destination := some "B", paymentType := some "FREE", amount := some "500" }

/-- The ticket the PAID example booking stores. -/
def exTicketPaid : TicketDoc :=
  { applicantId := 0, source := "A", destination := "B",
    paymentType := "PAID", amount := jsToNumber (some "500"), bookedAt := 0 }

/-- The ticket the FREE example booking stores. -/
def exTicketFree : TicketDoc :=
  { applicantId := 0, source := "A", destination := "B",
    paymentType := "FREE", amount := JsNum.num 0, bookedAt := 0 }

/-- C2 witness: a PAID booking with amount 500 stores the coercion of 500,
and a FREE booking with amount 500 stores amount 0. -/
theorem bookTicket_amount_policy_witness :
    ((bookTicket 0 exBodyPaid []).1 = .success exTicketPaid ∧
      exTicketPaid.amount = jsToNumber (some "500")) ∧
    ((bookTicket 0 exBodyFree []).1 = .success exTicketFree ∧
      exTicketFree.amount = JsNum.num 0) :=
  ⟨⟨by decide, (bookTicket_amount_policy 0 exBodyPaid [] exTicketPaid
      (by decide)).1 rfl⟩,
   ⟨by decide, (bookTicket_amount_policy 0 exBodyFree [] exTicketFree
      (by decide)).2 (by simp [exBodyFree])⟩⟩

/-- C5: a booking request in which applicantId, source, destination or
paymentType is falsy is rejected with the missing-fields response and
the tickets store is left unchanged. -/
theorem bookTicket_missing_fields (now : Nat) (body : BookBody)
    (store : List TicketDoc)
    (h : truthy body.applicantId = false ∨ truthy body.source = false ∨
      truthy body.destination = false ∨ truthy body.paymentType = false) :
    bookTicket now body store = (.missing, store) := by
  unfold bookTicket
  rcases h with h | h | h | h <;> simp [h]

/-- C5 witness: a booking without destination is rejected and the store,
here empty, is unchanged. -/
theorem bookTicket_missing_fields_witness :
    bookTicket 0
      { applicantId := some "000000000000000000000000", source := some "Hyd",
        paymentType := some "FREE" } [] = (.missing, []) :=
  bookTicket_missing_fields 0
    { applicantId := some "000000000000000000000000", source := some "Hyd",
      paymentType := some "FREE" } [] (Or.inr (Or.inr (Or.inl rfl)))

/-- C9: with the four required fields truthy, a well-formed applicantId
and paymentType PAID, bookTicket does not validate the amount: when the
Number coercion of the supplied amount is NaN the booking still succeeds
and the stored amount is NaN. -/
theorem bookTicket_accepts_nan_amount (now : Nat) (body : BookBody)
    (store : List TicketDoc) (oid : Nat)
    (h1 : truthy body.applicantId = true)
    (h2 : truthy body.source = true)
    (h3 : truthy body.destination = true)
    (hoid : parseObjectId (body.applicantId.getD "") = some oid)
    (hp : body.paymentType = some "PAID")
    (hnan : jsToNumber body.amount = .nan) :
    ∃ t : TicketDoc, bookTicket now body store = (.success t, store ++ [t]) ∧
      t.amount = JsNum.nan := by
  have h4 : truthy body.paymentType = true := by rw [hp]; rfl
  have hgd : body.paymentType.getD "" = "PAID" := by rw [hp]; rfl
  unfold bookTicket
  rw [if_neg (by simp [h1, h2, h3, h4]), hoid]
  exact ⟨_, rfl, by simp [hgd, hnan]⟩

/-- A PAID booking body whose amount does not parse as a number. -/
def exBodyNan : BookBody :=
  { applicantId := some "000000000000000000000000", source := some "A",
    destination := some "B", paymentType := some "PAID",
    amount := some "abc" }

/-- C9 witness: a PAID booking whose amount is the non-numeric string abc
succeeds and stores amount NaN. -/
theorem bookTicket_accepts_nan_amount_witness :
    ∃ t : TicketDoc,
      bookTicket 0 exBodyNan [] = (.success t, [] ++ [t]) ∧
      t.amount = JsNum.nan :=
  bookTicket_accepts_nan_amount 0 exBodyNan [] 0 (by decide) (by decide)
    (by decide) (by decide) (by decide) (by decide)

/-- C3: the apply handler fills each contact field of the persisted
record from the canonical value jsOr phone (jsOr whatsapp number),
except that an alias supplied with a truthy value keeps its own supplied
value; in particular a submission carrying only whatsapp yields phone,
whatsapp and number all equal to it. -/
theorem applyDoc_contact_fallback (qr : String → String) (q : ℚ) (now : Nat)
    (body : ApplyBody) (files : ApplyFiles) :
    ((applyDoc qr q now body files).phone =
      jsOr body.phone (jsOr body.whatsapp body.number)) ∧
    (truthy body.phone = true →
      (applyDoc qr q now body files).phone = body.phone) ∧
    (truthy body.whatsapp = true →
      (applyDoc qr q now body files).whatsapp = body.whatsapp) ∧
    (truthy body.number = true →
      (applyDoc qr q now body files).number = body.number) ∧
    (truthy body.whatsapp = false →
      (applyDoc qr q now body files).whatsapp =
        jsOr body.phone (jsOr body.whatsapp body.number)) ∧
    (truthy body.number = false →
      (applyDoc qr q now body files).number =
        jsOr body.phone (jsOr body.whatsapp body.number)) ∧
    (body.phone = none → body.number = none → truthy body.whatsapp = true →
      (applyDoc qr q now body files).phone = body.whatsapp ∧
      (applyDoc qr q now body files).whatsapp = body.whatsapp ∧
      (applyDoc qr q now body files).number = body.whatsapp) := by
  refine ⟨rfl, ?_, ?_, ?_, ?_, ?_, ?_⟩
  · intro h
    show jsOr body.phone (jsOr body.whatsapp body.number) = body.phone
    exact jsOr_truthy _ _ h
  · intro h
    show jsOr body.whatsapp (jsOr body.phone (jsOr body.whatsapp body.number)) =
      body.whatsapp
    exact jsOr_truthy _ _ h
  · intro h
    show jsOr body.number (jsOr body.phone (jsOr body.whatsapp body.number)) =
      body.number
    exact jsOr_truthy _ _ h
  · intro h
    show jsOr body.whatsapp (jsOr body.phone (jsOr body.whatsapp body.number)) =
      jsOr body.phone (jsOr body.whatsapp body.number)
    exact jsOr_falsy _ _ h
  · intro h
    show jsOr body.number (jsOr body.phone (jsOr body.whatsapp body.number)) =
      jsOr body.phone (jsOr body.whatsapp body.number)
    exact jsOr_falsy _ _ h
  · intro hp hn hw
    have hpf : truthy body.phone = false := by rw [hp]; rfl
    have hnf : truthy body.number = false := by rw [hn]; rfl
    have hcan : jsOr body.phone (jsOr body.whatsapp body.number) =
        body.whatsapp := by
      rw [jsOr_falsy _ _ hpf, jsOr_truthy _ _ hw]
    refine ⟨hcan, ?_, ?_⟩
    · show jsOr body.whatsapp (jsOr body.phone (jsOr body.whatsapp body.number)) =
        body.whatsapp
      exact jsOr_truthy _ _ hw
    · show jsOr body.number (jsOr body.phone (jsOr body.whatsapp body.number)) =
        body.whatsapp
      rw [jsOr_falsy _ _ hnf, hcan]

/-- C3 witness: submitting only whatsapp 9999999999 yields a record whose
phone, whatsapp and number all equal 9999999999. -/
theorem applyDoc_contact_fallback_witness :
    (applyDoc (fun s => s) 0 0 { whatsapp := some "9999999999" } {}).phone =
      some "9999999999" ∧
    (applyDoc (fun s => s) 0 0 { whatsapp := some "9999999999" } {}).whatsapp =
      some "9999999999" ∧
    (applyDoc (fun s => s) 0 0 { whatsapp := some "9999999999" } {}).number =
      some "9999999999" :=
  (applyDoc_contact_fallback (fun s => s) 0 0 { whatsapp := some "9999999999" }
    {}).2.2.2.2.2.2 rfl rfl (by decide)

theorem verifyByPhone_found {store : List StoredApplicant} {phone : String}
    (r : StoredApplicant) (hr : r ∈ store) (hm : matchesPhone phone r = true) :
    ∃ id, verifyByPhone store phone = .success id := by
  unfold verifyByPhone
  cases hf : store.find? (fun x => matchesPhone phone x) with
  | none =>
    exact absurd hm (by simpa using (List.find?_eq_none.mp hf) r hr)
  | some a =>
    exact ⟨a._id, rfl⟩

theorem verifyByPhone_sound {store : List StoredApplicant} {phone : String}
    {id : Nat} (h : verifyByPhone store phone = .success id) :
    ∃ r ∈ store, r._id = id ∧ matchesPhone phone r = true := by
  unfold verifyByPhone at h
  cases hf : store.find? (fun x => matchesPhone phone x) with
  | none =>
    rw [hf] at h
    exact absurd h (by simp)
  | some a =>
    rw [hf] at h
    injection h with h
    exact ⟨a, List.mem_of_find?_eq_some hf, h, by simpa using List.find?_some hf⟩

/-- C4: verifyByPhone reports found exactly when some stored record has
phone, whatsapp or number equal to the query, and on success answers the
internal id of a matching record; a record created by apply with phone
111 is found by verifyByPhone 111, and one created with only number 222
is found by verifyByPhone 222. -/
theorem verifyByPhone_spec :
    (∀ (store : List StoredApplicant) (phone : String),
      ((∃ id, verifyByPhone store phone = .success id) ↔
        ∃ r ∈ store, matchesPhone phone r = true) ∧
      (∀ id, verifyByPhone store phone = .success id →
        ∃ r ∈ store, r._id = id ∧ matchesPhone phone r = true)) ∧
    (∀ (qr : String → String) (q : ℚ) (now i : Nat) (body : ApplyBody)
        (files : ApplyFiles) (store : List StoredApplicant),
      body.phone = some "111" →
      (⟨i, applyDoc qr q now body files⟩ : StoredApplicant) ∈ store →
      ∃ id, verifyByPhone store "111" = .success id) ∧
    (∀ (qr : String → String) (q : ℚ) (now i : Nat) (body : ApplyBody)
        (files : ApplyFiles) (store : List StoredApplicant),
      body.phone = none → body.whatsapp = none → body.number = some "222" →
      (⟨i, applyDoc qr q now body files⟩ : StoredApplicant) ∈ store →
      ∃ id, verifyByPhone store "222" = .success id) := by
  refine ⟨fun store phone => ⟨⟨?_, ?_⟩, ?_⟩, ?_, ?_⟩
  · rintro ⟨id, h⟩
    obtain ⟨r, hr, _, hm⟩ := verifyByPhone_sound h
    exact ⟨r, hr, hm⟩
  · rintro ⟨r, hr, hm⟩
    exact verifyByPhone_found r hr hm
  · intro id h
    exact verifyByPhone_sound h
  · intro qr q now i body files store hphone hmem
    refine verifyByPhone_found _ hmem ?_
    have : (applyDoc qr q now body files).phone = some "111" := by
      show jsOr body.phone (jsOr body.whatsapp body.number) = some "111"
      rw [hphone, jsOr_truthy _ _ (by decide)]
    simp [matchesPhone, this]
  · intro qr q now i body files store hp hw hn hmem
    refine verifyByPhone_found _ hmem ?_
    have : (applyDoc qr q now body files).number = some "222" := by
      show jsOr body.number (jsOr body.phone (jsOr body.whatsapp body.number)) =
        some "222"
      rw [hn, jsOr_truthy _ _ (by decide)]
    simp [matchesPhone, this]

/-- C4 witness: a store holding the record created from a body whose only
contact field is phone 111 answers success on verifyByPhone 111. -/
theorem verifyByPhone_spec_witness :
    ∃ id,
      verifyByPhone
        [⟨7, applyDoc (fun s => s) 0 0 { phone := some "111" } {}⟩] "111" =
      .success id :=
  verifyByPhone_spec.2.1 (fun s => s) 0 0 7 { phone := some "111" } {}
    [⟨7, applyDoc (fun s => s) 0 0 { phone := some "111" } {}⟩] rfl
    (List.mem_singleton.mpr rfl)

/-- C6: when no stored record carries the requested passId, getByPassId
answers HTTP 404 with the not-found body, a status distinct from the 500
server error; not-found is an ordinary returned response of the
handler, not an exception path. -/
theorem getByPassId_not_found (store : List StoredApplicant) (passId : String)
    (h : ∀ r ∈ store, (r.app.passId == passId) = false) :
    getByPassId store passId = (404, .notFoundMsg) ∧ (404 : Nat) ≠ 500 := by
  have hf : store.find? (fun r => r.app.passId == passId) = none := by
    rw [List.find?_eq_none]
    intro x hx
    simp [h x hx]
  unfold getByPassId
  rw [hf]
  exact ⟨rfl, by omega⟩

/-- C6 witness: an identifier never issued, looked up in the empty store,
answers 404 and not 500. -/
theorem getByPassId_not_found_witness :
    getByPassId [] "TSRTC-00000000" = (404, .notFoundMsg) ∧ (404 : Nat) ≠ 500 :=
  getByPassId_not_found [] "TSRTC-00000000" (by simp)

/-- C7 counterexample: the claim says a malformed id is reported as a
client error distinct from the generic server error, but on the
malformed id xyz the handler answers exactly the generic 500 server
error of its catch block. -/
theorem getById_malformed_counterexample :
    parseObjectId "xyz" = none ∧ getById [] "xyz" = (500, .serverError) :=
  ⟨by decide, by decide⟩

/-- C7 amended: an id that cannot be parsed as an ObjectId surfaces as
the generic 500 server error (the catch of the handler), not as a
distinct client error, while a well-formed id matching no record answers
the success-false not-found body with status 200. -/
theorem getById_spec (store : List StoredApplicant) (idStr : String) :
    (parseObjectId idStr = none → getById store idStr = (500, .serverError)) ∧
    (∀ oid, parseObjectId idStr = some oid → (∀ r ∈ store, r._id ≠ oid) →
      getById store idStr = (200, .notFound)) := by
  constructor
  · intro h
    unfold getById
    rw [h]
  · intro oid h hne
    have hf : store.find? (fun r => r._id == oid) = none := by
      rw [List.find?_eq_none]
      intro x hx
      simp [hne x hx]
    unfold getById
    rw [h]
    show (match store.find? (fun r => r._id == oid) with
      | some a => (200, IdResp.found a)
      | none => (200, IdResp.notFound)) = (200, IdResp.notFound)
    rw [hf]

/-- C7 amended witness: the malformed id xyz answers 500, and the
well-formed all-zero id, absent from the empty store, answers the
not-found body with 200. -/
theorem getById_spec_witness :
    getById [] "xyz" = (500, .serverError) ∧
    getById [] "000000000000000000000000" = (200, .notFound) :=
  ⟨(getById_spec [] "xyz").1 (by decide),
   (getById_spec [] "000000000000000000000000").2 0 (by decide) (by simp)⟩

/-- C10: the ESM copy and the CommonJS copy of the server implement the
same request-to-response behaviour: the identifier generator and the
five endpoint handlers agree on every input, responses and store writes
included. -/
theorem esm_cjs_equivalent :
    (∀ q, generateUniquePassId q = Cjs.generateUniquePassId q) ∧
    (∀ qr q now body files,
      applyDoc qr q now body files = Cjs.applyDoc qr q now body files) ∧
    (∀ store phone, verifyByPhone store phone = Cjs.verifyByPhone store phone) ∧
    (∀ store idStr, getById store idStr = Cjs.getById store idStr) ∧
    (∀ store passId, getByPassId store passId = Cjs.getByPassId store passId) ∧
    (∀ now body store, bookTicket now body store = Cjs.bookTicket now body store) := by
  refine ⟨fun q => rfl, fun qr q now body files => rfl, fun store phone => rfl,
    fun store idStr => rfl, fun store passId => ?_, fun now body store => rfl⟩
  unfold getByPassId Cjs.getByPassId
  cases store.find? (fun r => r.app.passId == passId) <;> rfl

theorem natToBits_length (k n : Nat) : (natToBits k n).length = k := by
  induction k generalizing n with
  | zero => rfl
  | succ k ih => simp [natToBits, ih]

theorem bitsToNat_natToBits {k n : Nat} (h : n < 2 ^ k) :
    bitsToNat (natToBits k n) = n := by
  induction k generalizing n with
  | zero =>
    have : n = 0 := by simpa using h
    simp [this, natToBits, bitsToNat]
  | succ k ih =>
    have h2 : n / 2 < 2 ^ k := by
      rw [pow_succ] at h
      omega
    rw [natToBits, bitsToNat, ih h2]
    rcases Nat.mod_two_eq_zero_or_one n with h0 | h1
    · simp [h0]
      omega
    · simp [h1]
      omega

theorem decodeChars_encodeChars {cs : List Char}
    (h : ∀ c ∈ cs, c.toNat < 256) :
    decodeChars cs.length (encodeChars cs) = some cs := by
  induction cs with
  | nil => rfl
  | cons c cs ih =>
    have hc : c.toNat < 256 := h c (by simp)
    have hlen : (charToBits c).length = 8 := natToBits_length 8 _
    have htake : (charToBits c ++ encodeChars cs).take 8 = charToBits c :=
      List.take_left' hlen
    have hdrop : (charToBits c ++ encodeChars cs).drop 8 = encodeChars cs :=
      List.drop_left' hlen
    rw [List.length_cons, encodeChars, decodeChars, htake, hdrop, hlen]
    rw [ih (fun x hx => h x (by simp [hx]))]
    have hbits : bitsToNat (charToBits c) = c.toNat :=
      bitsToNat_natToBits (by simpa using hc)
    simp [hbits, Char.ofNat_toNat]

/-- C8: decoding the QR byte-mode payload produced for a pass identifier
yields exactly that identifier, for every identifier of fewer than 256
characters whose characters have codes below 256 (every generated
identifier is a 14-character ASCII string). -/
theorem qr_roundtrip (s : String) (hlen : s.length < 256)
    (hchars : ∀ c ∈ s.data, c.toNat < 256) :
    qrByteModeDecode (qrByteModeEncode s) = some s := by
  unfold qrByteModeEncode qrByteModeDecode
  rw [List.append_assoc (natToBits 4 4) (natToBits 8 s.length)
    (encodeChars s.data)]
  have l4 : (natToBits 4 4).length = 4 := natToBits_length 4 4
  have l8 : (natToBits 8 s.length).length = 8 := natToBits_length 8 _
  have htake4 : (natToBits 4 4 ++ (natToBits 8 s.length ++ encodeChars s.data)).take 4
      = natToBits 4 4 := List.take_left' l4
  have hdrop4 : (natToBits 4 4 ++ (natToBits 8 s.length ++ encodeChars s.data)).drop 4
      = natToBits 8 s.length ++ encodeChars s.data := List.drop_left' l4
  have htake8 : (natToBits 8 s.length ++ encodeChars s.data).take 8
      = natToBits 8 s.length := List.take_left' l8
  have hdrop8 : (natToBits 8 s.length ++ encodeChars s.data).drop 8
      = encodeChars s.data := List.drop_left' l8
  rw [htake4, hdrop4, htake8, hdrop8]
  have hcount : bitsToNat (natToBits 8 s.length) = s.length :=
    bitsToNat_natToBits (by simpa using hlen)
  rw [if_pos (by simp), if_pos (by simp [l8]), hcount,
    show s.length = s.data.length from rfl, decodeChars_encodeChars hchars]

/-- C8 witness: the payload of the identifier TSRTC-12345678 decodes back
to it. -/
theorem qr_roundtrip_witness :
    qrByteModeDecode (qrByteModeEncode "TSRTC-12345678") =
      some "TSRTC-12345678" :=
  qr_roundtrip "TSRTC-12345678" (by decide) (by decide)
